import Mathlib

/-!
Verification of the Emergency-Service Readiness Dashboard against its
natural-language specification.

The definitions below are a shallow embedding of:
* the Snowflake task `process_personnel_readiness_task`
  (src/data-pipeline/snowflake/03_streams_and_tasks.sql), which joins
  `UNIT_ASSIGNMENTS`, `PERSONNEL` and `UNITS`, aggregates per unit, and
  produces one `UNIT_READINESS_AGGREGATES` row per unit with a readiness
  score, missing-certification array and understaffed flag;
* the Snowflake task `process_certification_expirations_task` from the
  same file, which rewrites `PERSONNEL.availability_status` for holders
  of expired certifications;
* the client-side change detector and WebSocket connection manager in
  src/dashboard/app/readiness/page.tsx.

Timestamps are modelled as integers (`Int`); SQL `ARRAY`/`VARIANT`
columns as Lean lists; the `cert_expirations` JSON object as an
association list from certification name to expiry timestamp.
-/

namespace Readiness

/-- A row of `RAW.PERSONNEL` (the fields the tasks read or write). -/
structure Person where
  personnel_id : String
  name : String
  role : String
  certifications : List String
  cert_expirations : List (String × Int)
  availability_status : String
  updated_at : Int
  deriving Repr, DecidableEq

/-- A row of `RAW.UNITS` (the fields the readiness task reads). -/
structure Unit where
  unit_id : String
  unit_name : String
  type : String
  minimum_staff : Nat
  required_certifications : List String
  deriving Repr, DecidableEq

/-- A row of `RAW.UNIT_ASSIGNMENTS`. -/
structure Assignment where
  unit_id : String
  personnel_id : String
  assignment_status : String
  shift_start : Int
  shift_end : Int
  deriving Repr, DecidableEq

/-- The `WHERE` clause of the `current_assignments` CTE in
`process_personnel_readiness_task`:
`ua.assignment_status = 'ON_SHIFT' AND CURRENT_TIMESTAMP() BETWEEN
ua.shift_start AND ua.shift_end`.  SQL `BETWEEN` is inclusive at both
ends. -/
def isCurrentAssignment (now : Int) (a : Assignment) : Bool :=
  a.assignment_status == "ON_SHIFT" && a.shift_start ≤ now && now ≤ a.shift_end

/-- The persons joined to a unit by the `current_assignments` CTE: those
personnel rows having an ON_SHIFT assignment to the unit whose window
contains `now` (inclusive). -/
def activePersons (now : Int) (u : Unit) (assignments : List Assignment)
    (persons : List Person) : List Person :=
  persons.filter (fun p =>
    assignments.any (fun a =>
      a.unit_id == u.unit_id && a.personnel_id == p.personnel_id
        && isCurrentAssignment now a))

/-- `COUNT(DISTINCT ca.personnel_id)` over the unit's current
assignments. -/
def currentStaff (ps : List Person) : Nat :=
  (ps.map (·.personnel_id)).dedup.length

/-- `COUNT(DISTINCT CASE WHEN ca.availability_status = 'AVAILABLE' THEN
ca.personnel_id END)`. -/
def availableStaff (ps : List Person) : Nat :=
  ((ps.filter (fun p => p.availability_status == "AVAILABLE")).map
    (·.personnel_id)).dedup.length

/-- The `missing_cert` subquery aggregated by `ARRAY_AGG(DISTINCT ...)`:
a required certification is collected when SOME currently assigned
person's `certifications` array does not contain it.  The expiry map
`cert_expirations` is never consulted by this task.  (The SQL sorts the
array by name; the claims only use membership and emptiness, which are
order-independent, so we keep the unit's declaration order and
deduplicate.) -/
def missingCerts (u : Unit) (ps : List Person) : List String :=
  (u.required_certifications.filter (fun c =>
    ps.any (fun p => !(p.certifications.contains c)))).dedup

/-- The `CASE` expression computing `readiness_score`.  Snowflake
evaluates `current_staff >= minimum_staff * 0.8` in exact decimal
arithmetic (`0.8` is a `NUMBER(1,1)` literal), so over naturals it is
exactly `5 * current ≥ 4 * minimum`. -/
def readinessScore (cur avail min_staff : Nat) (missing : List String) : Nat :=
  if cur ≥ min_staff ∧ avail ≥ min_staff ∧ missing = [] then 100
  else if cur ≥ min_staff ∧ avail ≥ min_staff then 85
  else if cur ≥ min_staff then 70
  else if 5 * cur ≥ 4 * min_staff then 50
  else 30

/-- The `UNIT_READINESS_AGGREGATES` row produced for one unit. -/
structure UnitReadinessSnapshot where
  unit_id : String
  unit_name : String
  type : String
  minimum_staff : Nat
  current_staff : Nat
  available_staff : Nat
  readiness_score : Nat
  missing_certifications : List String
  understaffed_flag : Bool
  deriving Repr, DecidableEq

/-- The `SELECT` of `process_personnel_readiness_task` for one unit:
assemble the aggregates and the score.  `understaffed_flag` is the SQL
`CASE WHEN ur.current_staff < ur.minimum_staff THEN TRUE ELSE FALSE
END`.  (The SQL emits no row for a unit with no current assignments;
the claims below are stated about units that do produce a row.) -/
def unitSnapshot (now : Int) (u : Unit) (assignments : List Assignment)
    (persons : List Person) : UnitReadinessSnapshot :=
  let ps := activePersons now u assignments persons
  let cur := currentStaff ps
  let avail := availableStaff ps
  let missing := missingCerts u ps
  { unit_id := u.unit_id
    unit_name := u.unit_name
    type := u.type
    minimum_staff := u.minimum_staff
    current_staff := cur
    available_staff := avail
    readiness_score := readinessScore cur avail u.minimum_staff missing
    missing_certifications := missing
    understaffed_flag := cur < u.minimum_staff }

/-- The `WHERE EXISTS` predicate of
`process_certification_expirations_task`: some recorded expiry
timestamp is strictly before `now`. -/
def hasExpiredCert (now : Int) (p : Person) : Bool :=
  p.cert_expirations.any (fun ce => ce.2 < now)

/-- The effect of the hourly `UPDATE RAW.PERSONNEL` on one row: if the
person has an expired certification and is not already IN_TRAINING,
overwrite `availability_status` and `updated_at`; otherwise leave the
row untouched. -/
def expireStep (now : Int) (p : Person) : Person :=
  if hasExpiredCert now p && !(p.availability_status == "IN_TRAINING") then
    { p with availability_status := "IN_TRAINING", updated_at := now }
  else p

/-- `process_certification_expirations_task` applied to the whole
`PERSONNEL` table. -/
def processCertExpirations (now : Int) (ps : List Person) : List Person :=
  ps.map (expireStep now)

end Readiness

namespace Dashboard

/-- One `assigned_personnel` entry of the WebSocket payload
(`UnitReadiness` interface in src/dashboard/app/readiness/page.tsx). -/
structure PersonDisplay where
  personnel_id : String
  name : String
  role : String
  certifications : List String
  deriving Repr, DecidableEq

/-- The `UnitReadiness` interface of src/dashboard/app/readiness/page.tsx:
the shape of both the `units` state entries and the `data` payload of a
`unit_readiness` WebSocket message. -/
structure UnitReadiness where
  unit_id : String
  unit_name : String
  unit_type : String
  readiness_score : Nat
  staff_required : Nat
  staff_present : Nat
  certifications_missing : List String
  expired_certifications : List String
  is_understaffed : Bool
  issues : List String
  assigned_personnel : List PersonDisplay
  timestamp : String
  deriving Repr, DecidableEq

/-- A toast alert as produced by `addToast` (message text plus one of
the `ToastMessage` severities). -/
structure Alert where
  message : String
  severity : String
  deriving Repr, DecidableEq

def mkUnderstaffedAlert (unitName : String) : Alert :=
  { message := "🚨 " ++ unitName ++ " is now UNDERSTAFFED!", severity := "error" }

def mkExpiredAlert (unitName : String) : Alert :=
  { message := "⏰ " ++ unitName ++ " has expired certifications!", severity := "warning" }

def mkMissingAlert (unitName : String) : Alert :=
  { message := "📛 " ++ unitName ++ " is missing required certifications!", severity := "warning" }

/-- The `ws.onmessage` handler for a `unit_readiness` message: find the
previous entry for the unit (`prev.find`), replace every entry with a
matching `unit_id` by the new data (`prev.map`), and — only when a
previous entry exists — emit the degradation toasts.  Returns the new
`units` state and the toasts emitted, in program order. -/
def handleMessage (units : List UnitReadiness) (newData : UnitReadiness) :
    List UnitReadiness × List Alert :=
  let oldUnit := units.find? (fun u => u.unit_id == newData.unit_id)
  let updated := units.map (fun u =>
    if u.unit_id == newData.unit_id then newData else u)
  let alerts := match oldUnit with
    | none => []
    | some old =>
        (if newData.is_understaffed && !old.is_understaffed then
          [mkUnderstaffedAlert newData.unit_name] else [])
        ++ (if old.expired_certifications.length <
              newData.expired_certifications.length then
          [mkExpiredAlert newData.unit_name] else [])
        ++ (if old.certifications_missing.length <
              newData.certifications_missing.length then
          [mkMissingAlert newData.unit_name] else [])
  (updated, alerts)

/-- Whether processing a message fired the "now UNDERSTAFFED" toast.
That toast is the only one `handleMessage` emits with severity
`error`. -/
def firedUnderstaffed (units : List UnitReadiness) (newData : UnitReadiness) : Bool :=
  (handleMessage units newData).2.any (fun a => a.severity == "error")

/-- Browser `WebSocket.readyState` values. -/
inductive WsState where
  | CONNECTING
  | OPEN
  | CLOSING
  | CLOSED
  deriving Repr, DecidableEq

/-- One WebSocket object: a fresh identifier, the unit whose endpoint it
was opened for, and its ready state. -/
structure Channel where
  id : Nat
  unit : String
  state : WsState
  deriving Repr, DecidableEq

/-- The client's live-connection state: `wsConnectionsRef` (unit id to
socket id), every socket ever created, the `wsConnected` indicator set,
and a counter of fresh socket ids. -/
structure ConnState where
  registry : List (String × Nat)
  channels : List Channel
  connected : List String
  nextId : Nat
  deriving Repr, DecidableEq

/-- Replace (or insert) the registry entry for a unit, as
`Map.prototype.set` does. -/
def setEntry (reg : List (String × Nat)) (uid : String) (cid : Nat) :
    List (String × Nat) :=
  (uid, cid) :: reg.filter (fun e => !(e.1 == uid))

/-- The ready state of the socket a registry value points at. -/
def chanState (s : ConnState) (cid : Nat) : Option WsState :=
  (s.channels.find? (fun c => c.id == cid)).map (·.state)

/-- The per-unit body of the connect `useEffect` in page.tsx: skip only
when the registry already holds a socket for the unit AND that socket's
`readyState` is `OPEN`; otherwise construct a `new WebSocket` (which
starts in `CONNECTING`) and overwrite the registry entry.  The code
never closes the socket it overwrites. -/
def connectUnit (s : ConnState) (uid : String) : ConnState :=
  let skip := match s.registry.lookup uid with
    | some cid => chanState s cid == some WsState.OPEN
    | none => false
  if skip then s
  else
    { s with
      registry := setEntry s.registry uid s.nextId
      channels := s.channels ++ [{ id := s.nextId, unit := uid, state := WsState.CONNECTING }]
      nextId := s.nextId + 1 }

/-- The sockets of a unit that are currently OPEN or CONNECTING. -/
def liveChannelsFor (s : ConnState) (uid : String) : List Channel :=
  s.channels.filter (fun c =>
    c.unit == uid && (c.state == WsState.OPEN || c.state == WsState.CONNECTING))

/-- Set a socket's state to `CLOSED` (the net effect of `ws.close()` or
of the transport dropping the connection). -/
def closeChannel (channels : List Channel) (cid : Nat) : List Channel :=
  channels.map (fun c => if c.id == cid then { c with state := WsState.CLOSED } else c)

/-- The stale-unit loop of the connect `useEffect`: for every registry
entry whose unit is no longer in the current unit-id set, call
`ws.close()` if the socket is OPEN or CONNECTING, delete the registry
entry, and remove the unit from `wsConnected`. -/
def cleanupStale (s : ConnState) (currentUnitIds : List String) : ConnState :=
  let staleIds := (s.registry.filter
    (fun e => !(currentUnitIds.contains e.1))).map (·.2)
  { s with
    registry := s.registry.filter (fun e => currentUnitIds.contains e.1)
    channels := s.channels.map (fun c =>
      if staleIds.contains c.id
          && (c.state == WsState.OPEN || c.state == WsState.CONNECTING) then
        { c with state := WsState.CLOSED }
      else c)
    connected := s.connected.filter (fun u =>
      !((s.registry.any (fun e => e.1 == u)) && !(currentUnitIds.contains u))) }

/-- The `ws.onerror` handler: remove the unit from `wsConnected` only. -/
def onError (s : ConnState) (uid : String) : ConnState :=
  { s with connected := s.connected.filter (fun u => !(u == uid)) }

/-- The `ws.onclose` handler: remove the unit from `wsConnected` and
delete its registry entry. -/
def onClose (s : ConnState) (uid : String) : ConnState :=
  { s with
    connected := s.connected.filter (fun u => !(u == uid))
    registry := s.registry.filter (fun e => !(e.1 == uid)) }

/-- A transport failure on the socket registered for `uid`: the
transport moves the socket to CLOSED and fires the `error` event and
then the `close` event (the browser always follows a connection failure
with a close event), so both handlers run. -/
def transportError (s : ConnState) (uid : String) : ConnState :=
  let s1 := match s.registry.lookup uid with
    | some cid => { s with channels := closeChannel s.channels cid }
    | none => s
  onClose (onError s1 uid) uid

end Dashboard

namespace Instances

open Readiness Dashboard

/-- A medic unit requiring one certification, minimum staff 1. -/
def uMedic : Readiness.Unit :=
  { unit_id := "u1", unit_name := "Medic 1", type := "MEDIC",
    minimum_staff := 1, required_certifications := ["ACLS"] }

/-- An available medic who holds ACLS, but whose recorded ACLS expiry
(time 5) is in the past relative to reference time 10. -/
def pExpired : Person :=
  { personnel_id := "p1", name := "Ann", role := "Medic",
    certifications := ["ACLS"], cert_expirations := [("ACLS", 5)],
    availability_status := "AVAILABLE", updated_at := 0 }

/-- An ON_SHIFT assignment of `pExpired` to `uMedic` whose window
[0, 100] contains the reference time 10. -/
def aMedic : Assignment :=
  { unit_id := "u1", personnel_id := "p1", assignment_status := "ON_SHIFT",
    shift_start := 0, shift_end := 100 }

/-- A rescue unit requiring EMT-P, minimum staff 2. -/
def uRescue : Readiness.Unit :=
  { unit_id := "u2", unit_name := "Rescue 2", type := "RESCUE",
    minimum_staff := 2, required_certifications := ["EMT-P"] }

/-- Holds EMT-P with no recorded expiry (treated as never expiring). -/
def pHolder : Person :=
  { personnel_id := "p2", name := "Bo", role := "Paramedic",
    certifications := ["EMT-P"], cert_expirations := [],
    availability_status := "AVAILABLE", updated_at := 0 }

/-- Holds no certifications at all. -/
def pBlank : Person :=
  { personnel_id := "p3", name := "Cy", role := "Firefighter",
    certifications := [], cert_expirations := [],
    availability_status := "AVAILABLE", updated_at := 0 }

def aHolder : Assignment :=
  { unit_id := "u2", personnel_id := "p2", assignment_status := "ON_SHIFT",
    shift_start := 0, shift_end := 100 }

def aBlank : Assignment :=
  { unit_id := "u2", personnel_id := "p3", assignment_status := "ON_SHIFT",
    shift_start := 0, shift_end := 100 }

/-- A SAR unit requiring two certifications. -/
def uSar : Readiness.Unit :=
  { unit_id := "u3", unit_name := "SAR 3", type := "SAR_TEAM",
    minimum_staff := 1, required_certifications := ["EMT-P", "CPR"] }

/-- Holds every certification `uSar` requires, unexpired. -/
def pFull : Person :=
  { personnel_id := "p4", name := "Di", role := "Paramedic",
    certifications := ["EMT-P", "CPR"], cert_expirations := [],
    availability_status := "AVAILABLE", updated_at := 0 }

/-- A certified person (holds CPR, unexpired) who lacks EMT-P. -/
def pPartial : Person :=
  { personnel_id := "p5", name := "Ed", role := "EMT",
    certifications := ["CPR"], cert_expirations := [],
    availability_status := "AVAILABLE", updated_at := 0 }

def aFull : Assignment :=
  { unit_id := "u3", personnel_id := "p4", assignment_status := "ON_SHIFT",
    shift_start := 0, shift_end := 100 }

def aPartial : Assignment :=
  { unit_id := "u3", personnel_id := "p5", assignment_status := "ON_SHIFT",
    shift_start := 0, shift_end := 100 }

/-- An ON_SHIFT assignment whose window ends exactly at the reference
time 10. -/
def aEndsNow : Assignment :=
  { unit_id := "u1", personnel_id := "p1", assignment_status := "ON_SHIFT",
    shift_start := 0, shift_end := 10 }

/-- A readiness payload reporting the unit understaffed. -/
def nUnder : UnitReadiness :=
  { unit_id := "u9", unit_name := "Engine 9", unit_type := "ENGINE",
    readiness_score := 30, staff_required := 4, staff_present := 2,
    certifications_missing := [], expired_certifications := [],
    is_understaffed := true, issues := [], assigned_personnel := [],
    timestamp := "t1" }

/-- The prior list entry for the same unit, not understaffed. -/
def nPrevOk : UnitReadiness :=
  { unit_id := "u9", unit_name := "Engine 9", unit_type := "ENGINE",
    readiness_score := 100, staff_required := 4, staff_present := 4,
    certifications_missing := [], expired_certifications := [],
    is_understaffed := false, issues := [], assigned_personnel := [],
    timestamp := "t0" }

/-- A connection state whose registered socket for "u1" is still
CONNECTING. -/
def sConnecting : ConnState :=
  { registry := [("u1", 0)],
    channels := [{ id := 0, unit := "u1", state := WsState.CONNECTING }],
    connected := [], nextId := 1 }

/-- A connection state whose registered socket for "u1" is OPEN and
reported live. -/
def sOpen : ConnState :=
  { registry := [("u1", 0)],
    channels := [{ id := 0, unit := "u1", state := WsState.OPEN }],
    connected := ["u1"], nextId := 1 }

end Instances

namespace Readiness

/-- The score `CASE` yields 100 exactly on its first branch. -/
theorem readinessScore_eq_100_iff (cur avail m : Nat) (missing : List String) :
    readinessScore cur avail m missing = 100 ↔
      (cur ≥ m ∧ avail ≥ m ∧ missing = []) := by
  unfold readinessScore
  split_ifs with h1 h2 h3 h4 <;> simp_all

/-- Membership in the aggregated missing-certification array: some
currently assigned person lacks the (required) certification. -/
theorem missingCerts_mem_iff (u : Unit) (ps : List Person) (c : String) :
    c ∈ missingCerts u ps ↔
      c ∈ u.required_certifications ∧ ∃ p ∈ ps, c ∉ p.certifications := by
  unfold missingCerts
  simp [List.mem_dedup, List.mem_filter, List.any_eq_true]

end Readiness

/-- C1: for every `UnitReadinessSnapshot` produced by the readiness
computation, the understaffed flag equals
`current_staff_count < minimum_staff`, regardless of the readiness
score. -/
theorem c1_understaffed_flag (now : Int) (u : Readiness.Unit)
    (assignments : List Readiness.Assignment) (persons : List Readiness.Person) :
    (Readiness.unitSnapshot now u assignments persons).understaffed_flag = true ↔
      (Readiness.unitSnapshot now u assignments persons).current_staff <
        (Readiness.unitSnapshot now u assignments persons).minimum_staff := by
  simp [Readiness.unitSnapshot]

/-- C2 counterexample: with one assigned AVAILABLE medic who holds the
single required certification "ACLS" whose recorded expiry (5) is
strictly before the reference time (10), both staffing conditions hold
and the task still scores the unit 100 — the readiness task never
consults `cert_expirations`, contradicting the claim that an expired
certification must prevent a score of 100. -/
theorem c2_counterexample :
    (Readiness.unitSnapshot 10 Instances.uMedic [Instances.aMedic]
        [Instances.pExpired]).readiness_score = 100 ∧
    (Readiness.unitSnapshot 10 Instances.uMedic [Instances.aMedic]
        [Instances.pExpired]).current_staff ≥ Instances.uMedic.minimum_staff ∧
    (Readiness.unitSnapshot 10 Instances.uMedic [Instances.aMedic]
        [Instances.pExpired]).available_staff ≥ Instances.uMedic.minimum_staff ∧
    Instances.pExpired ∈ Readiness.activePersons 10 Instances.uMedic
        [Instances.aMedic] [Instances.pExpired] ∧
    ("ACLS", (5 : Int)) ∈ Instances.pExpired.cert_expirations ∧
    ((5 : Int) < 10) := by decide

/-- C2 amended: the decision table is evaluated top-to-bottom with
first match winning, and the score is 100 exactly when
`current_staff >= minimum_staff`, `available_staff >= minimum_staff`
and the unit-level missing-certification array is empty; expired
certifications play no part in the score. -/
theorem c2_score_100_iff (now : Int) (u : Readiness.Unit)
    (assignments : List Readiness.Assignment) (persons : List Readiness.Person) :
    (Readiness.unitSnapshot now u assignments persons).readiness_score = 100 ↔
      ((Readiness.unitSnapshot now u assignments persons).current_staff ≥
          u.minimum_staff ∧
        (Readiness.unitSnapshot now u assignments persons).available_staff ≥
          u.minimum_staff ∧
        (Readiness.unitSnapshot now u assignments persons).missing_certifications
          = []) :=
  Readiness.readinessScore_eq_100_iff _ _ _ _

/-- C3: every snapshot's readiness score is one of 30, 50, 70, 85,
100. -/
theorem c3_score_range (now : Int) (u : Readiness.Unit)
    (assignments : List Readiness.Assignment) (persons : List Readiness.Person) :
    (Readiness.unitSnapshot now u assignments persons).readiness_score ∈
      ([30, 50, 70, 85, 100] : List Nat) := by
  show Readiness.readinessScore _ _ _ _ ∈ _
  unfold Readiness.readinessScore
  split_ifs <;> simp

/-- C10: the hourly certification-expiration task overwrites
`availability_status` to IN_TRAINING (and `updated_at`) for every
person with some recorded expiry strictly before the current time whose
status is not already IN_TRAINING, leaves every other field of such
rows and every other row unchanged, and acts row-by-row on the table. -/
theorem c10_expiration_task (now : Int) (p : Readiness.Person)
    (ps : List Readiness.Person) :
    (Readiness.hasExpiredCert now p = true →
      p.availability_status ≠ "IN_TRAINING" →
      (Readiness.expireStep now p).availability_status = "IN_TRAINING" ∧
      (Readiness.expireStep now p).updated_at = now ∧
      (Readiness.expireStep now p).personnel_id = p.personnel_id ∧
      (Readiness.expireStep now p).name = p.name ∧
      (Readiness.expireStep now p).role = p.role ∧
      (Readiness.expireStep now p).certifications = p.certifications ∧
      (Readiness.expireStep now p).cert_expirations = p.cert_expirations) ∧
    (Readiness.hasExpiredCert now p = false ∨
        p.availability_status = "IN_TRAINING" →
      Readiness.expireStep now p = p) ∧
    Readiness.processCertExpirations now ps =
      ps.map (Readiness.expireStep now) := by
  refine ⟨?_, ?_, rfl⟩
  · intro hexp hstatus
    have hb : (p.availability_status == "IN_TRAINING") = false := by
      simpa using hstatus
    simp [Readiness.expireStep, hexp, hb]
  · intro h
    rcases h with h | h
    · simp [Readiness.expireStep, h]
    · simp [Readiness.expireStep, h]

/-- C10 witness: a concrete AVAILABLE medic with an expired
certification is moved to IN_TRAINING by the task. -/
theorem c10_expiration_task_witness :
    (Readiness.expireStep 10 Instances.pExpired).availability_status
      = "IN_TRAINING" :=
  ((c10_expiration_task 10 Instances.pExpired []).1 (by decide) (by decide)).1

/-- C4 counterexample: the unit requires "EMT-P"; assigned person
`pHolder` holds it with no recorded expiry (so holds it current), yet
the task still reports "EMT-P" missing because the other assigned
person lacks it — the aggregation is "some assigned person lacks the
certification", not "no assigned person holds it current". -/
theorem c4_counterexample :
    "EMT-P" ∈ (Readiness.unitSnapshot 10 Instances.uRescue
        [Instances.aHolder, Instances.aBlank]
        [Instances.pHolder, Instances.pBlank]).missing_certifications ∧
    Instances.pHolder ∈ Readiness.activePersons 10 Instances.uRescue
        [Instances.aHolder, Instances.aBlank]
        [Instances.pHolder, Instances.pBlank] ∧
    "EMT-P" ∈ Instances.pHolder.certifications ∧
    Instances.pHolder.cert_expirations = [] := by decide

/-- C4 amended: a certification appears in `missing_certifications` iff
it is in the unit's required set and at least one currently assigned
person does not have it in their held-certification list; expiry dates
are never consulted, and one lacking person suffices even when another
assigned person holds the certification unexpired. -/
theorem c4_missing_membership (now : Int) (u : Readiness.Unit)
    (assignments : List Readiness.Assignment) (persons : List Readiness.Person)
    (c : String) :
    c ∈ (Readiness.unitSnapshot now u assignments persons).missing_certifications
      ↔ c ∈ u.required_certifications ∧
        ∃ p ∈ Readiness.activePersons now u assignments persons,
          c ∉ p.certifications :=
  Readiness.missingCerts_mem_iff _ _ _

/-- C5 counterexample: the unit requires EMT-P and CPR; with only
`pFull` assigned nothing is missing, and adding an assignment for the
certified person `pPartial` (holds CPR unexpired, lacks EMT-P) ADDS
"EMT-P" to `missing_certifications` — adding a certified person can add
entries, never remove them. -/
theorem c5_counterexample :
    (Readiness.unitSnapshot 10 Instances.uSar [Instances.aFull]
        [Instances.pFull, Instances.pPartial]).missing_certifications = [] ∧
    (Readiness.unitSnapshot 10 Instances.uSar [Instances.aFull, Instances.aPartial]
        [Instances.pFull, Instances.pPartial]).missing_certifications = ["EMT-P"] ∧
    Instances.pPartial.certifications = ["CPR"] ∧
    Instances.pPartial.cert_expirations = [] ∧
    Readiness.isCurrentAssignment 10 Instances.aPartial = true := by decide

/-- C5 amended: the detection is monotone increasing in assignments:
extending the assigned persons by one person never removes an entry
from the missing set — it adds exactly the required certifications the
new person does not hold by name, and adding a person who holds every
required certification leaves the missing set unchanged. -/
theorem c5_missing_extension (u : Readiness.Unit) (ps : List Readiness.Person)
    (p : Readiness.Person) (c : String) :
    (c ∈ Readiness.missingCerts u (ps ++ [p]) ↔
      c ∈ Readiness.missingCerts u ps ∨
        (c ∈ u.required_certifications ∧ c ∉ p.certifications)) ∧
    ((∀ c' ∈ u.required_certifications, c' ∈ p.certifications) →
      Readiness.missingCerts u (ps ++ [p]) = Readiness.missingCerts u ps) := by
  constructor
  · simp only [Readiness.missingCerts_mem_iff, List.mem_append, List.mem_singleton]
    constructor
    · rintro ⟨hc, q, hq | hq, hlack⟩
      · exact Or.inl ⟨hc, q, hq, hlack⟩
      · exact Or.inr ⟨hc, hq ▸ hlack⟩
    · rintro (⟨hc, q, hq, hlack⟩ | ⟨hc, hlack⟩)
      · exact ⟨hc, q, Or.inl hq, hlack⟩
      · exact ⟨hc, p, Or.inr rfl, hlack⟩
  · intro h
    unfold Readiness.missingCerts
    congr 1
    refine List.filter_congr ?_
    intro c' hc'
    have hp : c' ∈ p.certifications := h c' hc'
    simp [List.any_append, hp]

/-- C5 witness: adding the fully qualified `pFull` to the assignments
of `uSar` leaves the missing set unchanged. -/
theorem c5_missing_extension_witness :
    Readiness.missingCerts Instances.uSar ([Instances.pPartial] ++ [Instances.pFull])
      = Readiness.missingCerts Instances.uSar [Instances.pPartial] :=
  (c5_missing_extension Instances.uSar [Instances.pPartial] Instances.pFull
    "EMT-P").2 (by decide)

/-- C6 counterexample: an ON_SHIFT assignment whose `shift_end` equals
the reference time exactly still satisfies the task's activity filter
(SQL `BETWEEN` is end-inclusive), and the assigned person counts toward
`current_staff`, contradicting the claimed half-open window. -/
theorem c6_counterexample :
    Instances.aEndsNow.shift_end = 10 ∧
    Instances.aEndsNow.assignment_status = "ON_SHIFT" ∧
    Readiness.isCurrentAssignment 10 Instances.aEndsNow = true ∧
    (Readiness.unitSnapshot 10 Instances.uMedic [Instances.aEndsNow]
        [Instances.pExpired]).current_staff = 1 := by decide

/-- C6 amended: an assignment counts toward current staffing iff its
status is ON_SHIFT and the reference time lies in the CLOSED window
[shift_start, shift_end]; in particular an ON_SHIFT assignment with a
nonempty window still counts at the instant its shift ends. -/
theorem c6_window_inclusive (now : Int) (a : Readiness.Assignment) :
    (Readiness.isCurrentAssignment now a = true ↔
      a.assignment_status = "ON_SHIFT" ∧
        a.shift_start ≤ now ∧ now ≤ a.shift_end) ∧
    (a.assignment_status = "ON_SHIFT" → a.shift_start ≤ a.shift_end →
      Readiness.isCurrentAssignment a.shift_end a = true) := by
  constructor
  · simp [Readiness.isCurrentAssignment, and_assoc]
  · intro h1 h2
    simp [Readiness.isCurrentAssignment, h1, h2]

/-- C6 witness: the concrete assignment `aMedic` is active at its own
shift end. -/
theorem c6_window_inclusive_witness :
    Readiness.isCurrentAssignment Instances.aMedic.shift_end Instances.aMedic
      = true :=
  (c6_window_inclusive 0 Instances.aMedic).2 rfl (by decide)

namespace Dashboard

/-- The "now UNDERSTAFFED" toast fires exactly when a previous list
entry for the unit exists, the new data is understaffed and the
previous entry was not. -/
theorem firedUnderstaffed_iff (units : List UnitReadiness) (n : UnitReadiness) :
    firedUnderstaffed units n = true ↔
      ∃ old, units.find? (fun u => u.unit_id == n.unit_id) = some old ∧
        n.is_understaffed = true ∧ old.is_understaffed = false := by
  unfold firedUnderstaffed handleMessage
  cases h : units.find? (fun u => u.unit_id == n.unit_id) with
  | none => simp [h]
  | some old =>
      simp only [h]
      split_ifs with h1 h2 h3 <;>
        simp_all [mkUnderstaffedAlert, mkExpiredAlert, mkMissingAlert]

/-- After an understaffed update is applied to the list, a further
message for the same unit cannot fire the understaffed toast again:
every list entry for that unit is now the understaffed snapshot. -/
theorem fired_after_replace (units : List UnitReadiness) (n n' : UnitReadiness)
    (hn : n.is_understaffed = true) (hid : n'.unit_id = n.unit_id) :
    firedUnderstaffed (handleMessage units n).1 n' = false := by
  rw [← Bool.not_eq_true, firedUnderstaffed_iff]
  rintro ⟨old, hfind, hn', hold⟩
  have hp := List.find?_some hfind
  have hmem := List.mem_of_find?_eq_some hfind
  have hrepl : (handleMessage units n).1 =
      units.map (fun u => if u.unit_id == n.unit_id then n else u) := rfl
  rw [hrepl] at hmem
  rcases List.mem_map.mp hmem with ⟨u, hu, hgu⟩
  by_cases hc : u.unit_id == n.unit_id
  · simp only [hc, if_pos] at hgu
    rw [← hgu] at hold
    simp [hn] at hold
  · simp only [hc] at hgu
    rw [if_neg (by simp_all)] at hgu
    rw [← hgu] at hp
    rw [hid] at hp
    simp at hp hc
    exact hc hp

end Dashboard

/-- C7 counterexample: a `unit_readiness` message reporting an
understaffed unit for which the client holds NO previous snapshot
produces no toast at all — the handler only alerts when `prev.find`
succeeds, contradicting the claim that the alert also fires when there
is no previous snapshot. -/
theorem c7_counterexample :
    Instances.nUnder.is_understaffed = true ∧
    (Dashboard.handleMessage [] Instances.nUnder).2 = [] := by decide

/-- C7 amended: the "now understaffed" alert (the only severity-error
toast) is emitted exactly when a previous snapshot for the unit exists
in the current list, the new snapshot is understaffed and the previous
one was not; when no previous snapshot exists nothing is emitted, and
once the understaffed snapshot is stored a further understaffed message
for the same unit fires no second alert. -/
theorem c7_understaffed_alert (units : List Dashboard.UnitReadiness)
    (n n' : Dashboard.UnitReadiness) :
    (Dashboard.firedUnderstaffed units n = true ↔
      ∃ old, units.find? (fun u => u.unit_id == n.unit_id) = some old ∧
        n.is_understaffed = true ∧ old.is_understaffed = false) ∧
    (n.is_understaffed = true → n'.unit_id = n.unit_id →
      Dashboard.firedUnderstaffed (Dashboard.handleMessage units n).1 n' = false) :=
  ⟨Dashboard.firedUnderstaffed_iff units n,
    fun hn hid => Dashboard.fired_after_replace units n n' hn hid⟩

/-- C7 witness: after the not-understaffed entry for Engine 9 is
replaced by the understaffed snapshot, a repeat of that snapshot fires
no alert. -/
theorem c7_understaffed_alert_witness :
    Dashboard.firedUnderstaffed
      (Dashboard.handleMessage [Instances.nPrevOk] Instances.nUnder).1
      Instances.nUnder = false :=
  (c7_understaffed_alert [Instances.nPrevOk] Instances.nUnder
    Instances.nUnder).2 rfl rfl

/-- C8 counterexample: with the registered socket for "u1" still
CONNECTING, a subscription request creates a SECOND socket (two live
channels for the unit afterwards) and rewrites the registry entry —
the duplicate-open guard only skips when the existing socket is OPEN,
so the claimed invariant fails for CONNECTING channels. -/
theorem c8_counterexample :
    Dashboard.chanState Instances.sConnecting 0
      = some Dashboard.WsState.CONNECTING ∧
    (Dashboard.liveChannelsFor
        (Dashboard.connectUnit Instances.sConnecting "u1") "u1").length = 2 ∧
    (Dashboard.connectUnit Instances.sConnecting "u1").registry
      ≠ Instances.sConnecting.registry := by decide

/-- C8 amended: a subscription request is a no-op exactly when the
registered socket for the unit is OPEN; when the registered socket is
only CONNECTING the request creates a fresh CONNECTING socket and
overwrites the registry entry with it, leaving the old socket
unclosed — so duplicate requests are deduplicated only against OPEN
channels, while the registry itself keeps at most one entry per
unit. -/
theorem c8_duplicate_open (s : Dashboard.ConnState) (uid : String) (cid : Nat) :
    (s.registry.lookup uid = some cid →
      Dashboard.chanState s cid = some Dashboard.WsState.OPEN →
      Dashboard.connectUnit s uid = s) ∧
    (s.registry.lookup uid = some cid →
      Dashboard.chanState s cid = some Dashboard.WsState.CONNECTING →
      (Dashboard.connectUnit s uid).channels = s.channels ++
          [{ id := s.nextId, unit := uid, state := Dashboard.WsState.CONNECTING }] ∧
        (Dashboard.connectUnit s uid).registry.lookup uid = some s.nextId) := by
  constructor
  · intro h1 h2
    simp [Dashboard.connectUnit, h1, h2]
  · intro h1 h2
    constructor
    · simp [Dashboard.connectUnit, h1, h2]
    · simp [Dashboard.connectUnit, h1, h2, Dashboard.setEntry, List.lookup]

/-- C8 witness: with an OPEN socket registered for "u1", a repeated
subscription request leaves the state untouched. -/
theorem c8_duplicate_open_witness :
    Dashboard.connectUnit Instances.sOpen "u1" = Instances.sOpen :=
  (c8_duplicate_open Instances.sOpen "u1" 0).1 rfl rfl

namespace Dashboard

/-- A successful association-list lookup exhibits a member pair. -/
theorem lookup_mem {l : List (String × Nat)} {k : String} {v : Nat}
    (h : l.lookup k = some v) : (k, v) ∈ l := by
  induction l with
  | nil => simp [List.lookup] at h
  | cons e tl ih =>
      obtain ⟨a, b⟩ := e
      rw [List.lookup_cons] at h
      by_cases hk : k == a
      · simp [hk] at h
        simp only [beq_iff_eq] at hk
        subst hk
        subst h
        exact List.Mem.head _
      · simp [hk] at h
        exact List.mem_cons_of_mem _ (ih h)

/-- Stale-unit cleanup: a registered unit no longer in the known-unit
set loses its registry entry and live flag, its socket is left in
neither OPEN nor CONNECTING state, and units still known are
untouched. -/
theorem cleanupStale_removes (s : ConnState) (current : List String)
    (uid : String) (cid : Nat) (h0 : current.contains uid = false)
    (h1 : s.registry.lookup uid = some cid) :
    (∀ cid2, (uid, cid2) ∉ (cleanupStale s current).registry) ∧
    uid ∉ (cleanupStale s current).connected ∧
    (∀ c ∈ (cleanupStale s current).channels, c.id = cid →
      c.state ≠ WsState.OPEN ∧ c.state ≠ WsState.CONNECTING) ∧
    (∀ uid2 cid2, current.contains uid2 = true →
      (((uid2, cid2) ∈ (cleanupStale s current).registry) ↔
        ((uid2, cid2) ∈ s.registry)) ∧
      ((uid2 ∈ (cleanupStale s current).connected) ↔ (uid2 ∈ s.connected))) := by
  have hnot : uid ∉ current := by simpa using h0
  have hmem : (uid, cid) ∈ s.registry := lookup_mem h1
  have hany : s.registry.any (fun e => e.1 == uid) = true := by
    rw [List.any_eq_true]
    exact ⟨(uid, cid), hmem, by simp⟩
  have hstale : cid ∈ (s.registry.filter
      (fun e => !(current.contains e.1))).map (·.2) := by
    refine List.mem_map.mpr ⟨(uid, cid), ?_, rfl⟩
    rw [List.mem_filter]
    exact ⟨hmem, by simpa using h0⟩
  refine ⟨?_, ?_, ?_, ?_⟩
  · intro cid2
    simp [cleanupStale, List.mem_filter, h0]
    intro _
    exact hnot
  · simp [cleanupStale, List.mem_filter, hany, h0]
    intro _
    exact hnot
  · intro c hc hcid
    simp only [cleanupStale] at hc
    rcases List.mem_map.mp hc with ⟨c0, hc0, hfc⟩
    by_cases hcond : ((s.registry.filter
        (fun e => !(current.contains e.1))).map (·.2)).contains c0.id
          && (c0.state == WsState.OPEN || c0.state == WsState.CONNECTING)
    · rw [if_pos hcond] at hfc
      rw [← hfc]
      simp
    · rw [if_neg hcond] at hfc
      subst hfc
      rw [hcid] at hcond
      have hct : ((s.registry.filter
          (fun e => !(current.contains e.1))).map (·.2)).contains cid = true := by
        simpa using hstale
      simp [hct] at hcond
      exact hcond uid hmem hnot
  · intro uid2 cid2 h2
    have h2m : uid2 ∈ current := by simpa using h2
    constructor
    · simp [cleanupStale, List.mem_filter, h2, h2m]
    · simp [cleanupStale, List.mem_filter, h2, h2m]

/-- Transport failure on a registered socket: the error and close
handlers leave the unit out of the registry and the live set, the
socket ends CLOSED, and other units keep their registry entries and
live flags. -/
theorem transportError_removes (s : ConnState) (uid : String) (cid : Nat)
    (h1 : s.registry.lookup uid = some cid) :
    (∀ cid2, (uid, cid2) ∉ (transportError s uid).registry) ∧
    uid ∉ (transportError s uid).connected ∧
    (∀ c ∈ (transportError s uid).channels, c.id = cid →
      c.state = WsState.CLOSED) ∧
    (∀ uid2 cid2, uid2 ≠ uid →
      (((uid2, cid2) ∈ (transportError s uid).registry) ↔
        ((uid2, cid2) ∈ s.registry)) ∧
      ((uid2 ∈ (transportError s uid).connected) ↔ (uid2 ∈ s.connected))) := by
  refine ⟨?_, ?_, ?_, ?_⟩
  · intro cid2
    simp [transportError, h1, onClose, onError, List.mem_filter]
  · simp [transportError, h1, onClose, onError, List.mem_filter]
  · intro c hc hcid
    simp only [transportError, h1, onClose, onError] at hc
    have hc2 : c ∈ closeChannel s.channels cid := hc
    rcases List.mem_map.mp hc2 with ⟨c0, hc0, hfc⟩
    by_cases hcb : c0.id == cid
    · rw [if_pos hcb] at hfc
      rw [← hfc]
    · rw [if_neg hcb] at hfc
      subst hfc
      simp [hcid] at hcb
  · intro uid2 cid2 hne
    constructor
    · simp [transportError, h1, onClose, onError, List.mem_filter, hne]
    · simp [transportError, h1, onClose, onError, List.mem_filter, hne]

end Dashboard

/-- C9: on a unit disappearing from the known-unit set, or on a
transport error, the manager ends with the (client, unit) registry
entry removed, the unit absent from the live-connection set, the
registered socket no longer OPEN or CONNECTING (CLOSED outright in the
error path), and the failure is local: other units' registry entries
and live flags are untouched. -/
theorem c9_local_failure (s : Dashboard.ConnState) (current : List String)
    (uid : String) (cid : Nat) :
    (current.contains uid = false → s.registry.lookup uid = some cid →
      (∀ cid2, (uid, cid2) ∉ (Dashboard.cleanupStale s current).registry) ∧
      uid ∉ (Dashboard.cleanupStale s current).connected ∧
      (∀ c ∈ (Dashboard.cleanupStale s current).channels, c.id = cid →
        c.state ≠ Dashboard.WsState.OPEN ∧
          c.state ≠ Dashboard.WsState.CONNECTING) ∧
      (∀ uid2 cid2, current.contains uid2 = true →
        (((uid2, cid2) ∈ (Dashboard.cleanupStale s current).registry) ↔
          ((uid2, cid2) ∈ s.registry)) ∧
        ((uid2 ∈ (Dashboard.cleanupStale s current).connected) ↔
          (uid2 ∈ s.connected)))) ∧
    (s.registry.lookup uid = some cid →
      (∀ cid2, (uid, cid2) ∉ (Dashboard.transportError s uid).registry) ∧
      uid ∉ (Dashboard.transportError s uid).connected ∧
      (∀ c ∈ (Dashboard.transportError s uid).channels, c.id = cid →
        c.state = Dashboard.WsState.CLOSED) ∧
      (∀ uid2 cid2, uid2 ≠ uid →
        (((uid2, cid2) ∈ (Dashboard.transportError s uid).registry) ↔
          ((uid2, cid2) ∈ s.registry)) ∧
        ((uid2 ∈ (Dashboard.transportError s uid).connected) ↔
          (uid2 ∈ s.connected)))) :=
  ⟨fun h0 h1 => Dashboard.cleanupStale_removes s current uid cid h0 h1,
    fun h1 => Dashboard.transportError_removes s uid cid h1⟩

/-- C9 witness: after unit "u1" disappears from the known-unit set, its
live flag is gone from the concrete state `sOpen`. -/
theorem c9_local_failure_witness :
    "u1" ∉ (Dashboard.cleanupStale Instances.sOpen []).connected :=
  ((c9_local_failure Instances.sOpen [] "u1" 0).1 (by decide) (by decide)).2.1
